import Mathlib

/-!
Verification development for the Vulkan hardware-decode interop layer of dmpv
(`src/video/out/hwdec/hwdec_vulkan.c`).

The C code is shallowly embedded as executable Lean functions:
* `AVVkFrame` models the decoder-owned native frame object (capacity-4
  per-image arrays of handles, layouts, semaphores, counters, access flags;
  a `0` image handle encodes `VK_NULL_HANDLE`).
* `MapperPriv` / `Mapper` model `struct vulkan_mapper_priv` and the owning
  `ra_hwdec_mapper` state used by the code (`mapper->src`, `mapper->tex`).
* `mapper_unmap` and `mapper_map` model the frame export/import protocol;
  GPU calls (`pl_vulkan_hold_ex`, `pl_vulkan_wrap`, `mppl_wrap_tex`) are
  oracles supplied through environment records, and the list of issued
  wrap/hold calls is returned as an explicit trace.
* `vulkan_init` models the device-context builder; collaborator results
  (extension list, queue-family enumeration, allocation and backend-init
  results) are supplied through `InitEnv`.

Mutation of the decoder-owned frame is modelled by explicit state passing:
each operation takes the frame value and returns the updated frame value.
A `none` result models a null-pointer dereference (crash) in the C code.
-/

set_option maxHeartbeats 2000000

namespace DmpvVulkan

/-- The decoder-owned native frame object (`AVVkFrame`).  The C code only
ever touches the first four entries of each array; an image handle of `0`
encodes `VK_NULL_HANDLE`. -/
structure AVVkFrame where
  img : Fin 4 → Nat
  layout : Fin 4 → Nat
  sem : Fin 4 → Nat
  sem_value : Fin 4 → Nat
  access : Fin 4 → Nat
deriving DecidableEq

/-- `struct vulkan_mapper_priv`: the per-session snapshot plus the session's
`pl_tex` slots.  `vkf` records whether `p->vkf` is non-NULL, `w`/`h` are the
logical frame dimensions held in `p->layout` (set from `dst_params` at
mapper init), `tex i = true` means `p->tex[i] != NULL`. -/
structure MapperPriv where
  num_planes : Nat
  w : Nat
  h : Nat
  vkf : Bool
  tex : Fin 4 → Bool
  img : Fin 4 → Nat
  img_layout : Fin 4 → Nat
  sem : Fin 4 → Nat
  sem_value : Fin 4 → Nat
  num_images : Nat
deriving DecidableEq

/-- The mapper state visible to this driver: `mapper->src` (non-NULL flag),
the private session state, and the renderer-side `mapper->tex` handles. -/
structure Mapper where
  src : Bool
  priv : MapperPriv
  tex : Fin 4 → Bool
deriving DecidableEq

/-- `mp_chroma_div_up(size, shift)` from mpv's image utilities:
`(size + (1 << shift) - 1) >> shift`.  Used by `mp_image_plane_w/h`. -/
def mp_chroma_div_up (size shift : Nat) : Nat :=
  (size + (1 <<< shift) - 1) >>> shift

/-- The plane-to-image index selection used by `mapper_unmap`
(`p->layout.num_planes > 1 && num_images == 1 ? 0 : i`). -/
def mappingIndexF (num_planes num_images : Nat) (i : Fin 4) : Fin 4 :=
  if 1 < num_planes ∧ num_images = 1 then 0 else i

/-- The run of non-NULL `p->tex` slots scanned by the C loops
`for (int i = 0; (p->tex[i] != NULL); i++)`: the loop stops at the first
NULL slot. -/
def texScan (tex : Fin 4 → Bool) : List (Fin 4) :=
  (List.finRange 4).takeWhile tex

/-- `will_process[j]`: image index `j` is touched by this session, i.e. some
scanned plane maps to it (first loop of `mapper_unmap`). -/
def willProcess (p : MapperPriv) (j : Fin 4) : Bool :=
  (texScan p.tex).any (fun i => mappingIndexF p.num_planes p.num_images i == j)

/-- Image `i` gets its counter reserved and committed by `mapper_unmap`:
it is within `p->num_images` and `will_process[i]` holds (the guard of both
lock-scoped loops of `mapper_unmap`). -/
def unmapTouched (p : MapperPriv) (i : Fin 4) : Bool :=
  decide (i.val < p.num_images) && willProcess p i

/-- Oracle for the renderer-backend release call `pl_vulkan_hold_ex`:
per image index, whether the call succeeds and which layout it reports. -/
structure HoldEnv where
  ok : Fin 4 → Bool
  newLayout : Fin 4 → Nat
deriving DecidableEq

/-- One issued `pl_vulkan_hold_ex` call: the image index it targets, the
semaphore handle and the signal value passed to it. -/
structure Release where
  idx : Fin 4
  sem : Nat
  value : Nat
deriving DecidableEq

/-- Accumulator of the release loop of `mapper_unmap`: the `processed`,
`ok` and `new_layout` local arrays, the mutating `p->tex` slots, and the
trace of issued hold calls. -/
structure UnmapLoopSt where
  processed : Fin 4 → Bool
  okA : Fin 4 → Bool
  newLayoutA : Fin 4 → Nat
  tex : Fin 4 → Bool
  events : List Release
deriving DecidableEq

/-- One iteration of the release loop of `mapper_unmap`: issue the hold for
the plane's image index unless that index was already processed, then clear
the plane's `p->tex` slot. -/
def unmapStep (p : MapperPriv) (env : HoldEnv) (reserved : Fin 4 → Nat)
    (st : UnmapLoopSt) (i : Fin 4) : UnmapLoopSt :=
  let idx := mappingIndexF p.num_planes p.num_images i
  let st1 :=
    if st.processed idx then st
    else
      { st with
        processed := Function.update st.processed idx true
        okA := Function.update st.okA idx (env.ok idx)
        newLayoutA := Function.update st.newLayoutA idx (env.newLayout idx)
        events := st.events ++ [⟨idx, p.sem idx, reserved idx⟩] }
  { st1 with tex := Function.update st1.tex i false }

/-- The `end:` tail of `mapper_unmap`: free the renderer-side `mapper->tex`
handles for every logical plane, then clear the recorded native frame
reference (`p->vkf = NULL`). -/
def endPath (m : Mapper) : Mapper :=
  { m with
    tex := fun i => if i.val < m.priv.num_planes then false else m.tex i
    priv := { m.priv with vkf := false } }

/-- `mapper_unmap`.  Returns the updated mapper, the updated native frame
and the trace of issued hold calls; `none` models the crash of the C code
when `mapper->src` is set but `p->vkf` is NULL (`vkfc->lock_frame(hwfc, vkf)`
and `++vkf->sem_value[i]` dereference the NULL pointer). -/
def mapper_unmap (env : HoldEnv) (m : Mapper) (f : AVVkFrame) :
    Option (Mapper × AVVkFrame × List Release) :=
  if m.src = false then
    some (endPath m, f, [])
  else if m.priv.vkf = false then
    none
  else
    let p := m.priv
    let reserved : Fin 4 → Nat := fun i =>
      if unmapTouched p i then f.sem_value i + 1 else 0
    let f1 : AVVkFrame :=
      { f with sem_value := fun i =>
          if unmapTouched p i then f.sem_value i + 1 else f.sem_value i }
    let st0 : UnmapLoopSt := ⟨fun _ => false, fun _ => false, fun _ => 0, p.tex, []⟩
    let st := (texScan p.tex).foldl (unmapStep p env reserved) st0
    let f2 : AVVkFrame :=
      { f1 with
        layout := fun i =>
          if unmapTouched p i && st.okA i then st.newLayoutA i else f1.layout i
        sem_value := fun i =>
          if unmapTouched p i && !(st.okA i) then reserved i - 1 else f1.sem_value i
        access := fun i => if i.val < p.num_images then 0 else f1.access i }
    let m1 : Mapper := { m with priv := { p with tex := st.tex } }
    some (endPath m1, f2, st.events)

/-- The per-plane color aspect masks of `mapper_map`. -/
inductive Aspect where
  | color
  | plane0
  | plane1
  | plane2
deriving DecidableEq

/-- Source-image index and aspect selection of the plane loop of
`mapper_map`: for a multiplane frame (several planes in one image) plane `i`
uses image 0 with the `i`-th plane aspect and a fourth plane hits the
`default: goto error` arm; otherwise plane `i` uses image `i` with the plain
color aspect. -/
def planeSelect (num_planes num_images : Nat) (i : Fin 4) :
    Option (Fin 4 × Aspect) :=
  if 1 < num_planes ∧ num_images = 1 then
    match i.val with
    | 0 => some (0, .plane0)
    | 1 => some (0, .plane1)
    | 2 => some (0, .plane2)
    | _ => none
  else
    some (i, .color)

/-- Oracle results for the collaborator calls made by `mapper_map`, plus the
geometry/format inputs it reads: the `pl_vulkan_get` result, the HW frames
context dimensions, the per-plane Vulkan formats, the per-plane chroma
shifts of the mapper's image format, the per-plane results of
`pl_vulkan_wrap` and `mppl_wrap_tex`, and the hold oracle used if the error
path runs `mapper_unmap`. -/
structure MapEnv where
  vkOk : Bool
  hwfc_w : Nat
  hwfc_h : Nat
  vk_fmt : Fin 4 → Nat
  xs : Fin 4 → Nat
  ys : Fin 4 → Nat
  wrapOk : Fin 4 → Bool
  wrapTexOk : Fin 4 → Bool
  hold : HoldEnv
deriving DecidableEq

/-- One issued `pl_vulkan_wrap` call: the logical plane, the image index
chosen by the mapping rule, the image handle taken from the session
snapshot, the wrapped geometry, the plane format and the aspect mask. -/
structure WrapCall where
  plane : Nat
  imageIndex : Nat
  image : Nat
  width : Nat
  height : Nat
  format : Nat
  aspect : Aspect
deriving DecidableEq

/-- `num_images` discovery of `mapper_map`: the run of non-NULL image
handles at the front of `vkf->img`, capped at 4. -/
def countImages (f : AVVkFrame) : Nat :=
  ((List.finRange 4).takeWhile (fun i => f.img i != 0)).length

/-- Accumulator of the plane loop of `mapper_map`: the session's `p->tex`
slots, the renderer-side `mapper->tex` slots, and the trace of issued
`pl_vulkan_wrap` calls. -/
structure MapLoopSt where
  ptex : Fin 4 → Bool
  mtex : Fin 4 → Bool
  wraps : List WrapCall
deriving DecidableEq

/-- The plane loop of `mapper_map` over the logical planes.  Each iteration
selects image index and aspect, issues the wrap call with the frames-context
geometry, and on any failure stops with `false` (the `goto error` arm),
leaving the partially built state: a failed `pl_vulkan_wrap` leaves the
slot NULL, a failed `mppl_wrap_tex` destroys the just-wrapped `pl_tex`. -/
def mapPlanes (env : MapEnv) (p : MapperPriv) :
    List (Fin 4) → MapLoopSt → MapLoopSt × Bool
  | [], st => (st, true)
  | i :: rest, st =>
    match planeSelect p.num_planes p.num_images i with
    | none => (st, false)
    | some (idx, a) =>
      let w : WrapCall :=
        { plane := i.val
          imageIndex := idx.val
          image := p.img idx
          width := mp_chroma_div_up env.hwfc_w (env.xs i)
          height := mp_chroma_div_up env.hwfc_h (env.ys i)
          format := env.vk_fmt i
          aspect := a }
      let st1 : MapLoopSt := { st with wraps := st.wraps ++ [w] }
      if env.wrapOk i = false then (st1, false)
      else
        let st2 : MapLoopSt := { st1 with ptex := Function.update st1.ptex i true }
        if env.wrapTexOk i = false then
          ({ st2 with ptex := Function.update st2.ptex i false }, false)
        else
          mapPlanes env p rest { st2 with mtex := Function.update st2.mtex i true }

/-- Outcome of `mapper_map`: early `return -1` when the renderer is not the
expected backend; success; a failing import that returned `-1` after its
`mapper_unmap` unwind completed; or a failing import whose unwind crashed
(the unwind dereferences the NULL `p->vkf`). -/
inductive MapOutcome where
  | noContext
  | success
  | errorReturned
  | unwindCrash
deriving DecidableEq

/-- Result of `mapper_map`: outcome, final mapper state (at the crash point
for `unwindCrash`), final native frame, and the trace of issued wrap
calls. -/
structure MapResult where
  outcome : MapOutcome
  m : Mapper
  f : AVVkFrame
  wraps : List WrapCall
deriving DecidableEq

/-- `mapper_map`.  The caller (the hwdec framework) invokes it only with
`mapper->src` set, so the native frame behind `mapper->src->planes[0]` is
taken directly as `f`.  Under the frame lock it snapshots the per-image
arrays and the image count into the session, then wraps each logical plane;
on success it records the native frame reference, on failure it runs
`mapper_unmap` on the partial session and returns `-1`. -/
def mapper_map (env : MapEnv) (m : Mapper) (f : AVVkFrame) : MapResult :=
  if env.vkOk = false then ⟨.noContext, m, f, []⟩
  else
    let ni := countImages f
    let p1 : MapperPriv :=
      { m.priv with
        img := fun i => if i.val < ni then f.img i else m.priv.img i
        img_layout := fun i => if i.val < ni then f.layout i else m.priv.img_layout i
        sem := fun i => if i.val < ni then f.sem i else m.priv.sem i
        sem_value := fun i => if i.val < ni then f.sem_value i else m.priv.sem_value i
        num_images := ni }
    let planes := (List.finRange 4).takeWhile (fun i => decide (i.val < p1.num_planes))
    let st0 : MapLoopSt := ⟨p1.tex, m.tex, []⟩
    match mapPlanes env p1 planes st0 with
    | (st, true) =>
      ⟨.success,
        { m with priv := { p1 with tex := st.ptex, vkf := true }, tex := st.mtex },
        f, st.wraps⟩
    | (st, false) =>
      let mErr : Mapper := { m with priv := { p1 with tex := st.ptex }, tex := st.mtex }
      match mapper_unmap env.hold mErr f with
      | none => ⟨.unwindCrash, mErr, f, st.wraps⟩
      | some (m2, f2, _) => ⟨.errorReturned, m2, f2, st.wraps⟩

/-- Modelled from the spec: the caller-side unmap wrapper (the hwdec
framework under `video/out/gpu/`, not part of the shown sources) performs
the session teardown: it invokes the driver's unmap and then clears the
session's source-image reference, returning the session to `Unmapped` so it
is safe to reuse for the next frame. -/
def session_export (env : HoldEnv) (m : Mapper) (f : AVVkFrame) :
    Option (Mapper × AVVkFrame × List Release) :=
  match mapper_unmap env m f with
  | none => none
  | some (m1, f1, evs) => some ({ m1 with src := false }, f1, evs)

/-- One enumerated queue family, with its queue count, its
`VK_QUEUE_VIDEO_DECODE_BIT_KHR` capability and its
`videoCodecOperations` bitmask. -/
structure QueueFamily where
  count : Nat
  decode : Bool
  videoCaps : Nat
deriving DecidableEq

/-- The capability flag recorded with a queue-family entry of the new
(multi-queue) FFmpeg API. -/
inductive QFlag where
  | graphics
  | transfer
  | compute
  | decode
deriving DecidableEq

/-- One `AVVulkanDeviceQueueFamily` entry written by the new-API branch of
`vulkan_init`. -/
structure QfEntry where
  idx : Nat
  num : Nat
  flag : QFlag
  video_caps : Nat
deriving DecidableEq

/-- The legacy single-queue assignment written by the old-API branch of
`vulkan_init`. -/
structure LegacyAssign where
  graphics_index : Nat
  nb_graphics : Nat
  tx_index : Nat
  nb_tx : Nat
  comp_index : Nat
  nb_comp : Nat
  decode_index : Int
  nb_decode : Nat
deriving DecidableEq

/-- Inputs and collaborator results consumed by `vulkan_init`: backend
identity checks, the enabled device extension list, the enumerated queue
families, the libplacebo graphics/transfer/compute queue assignments, the
allocation results, the backend (`av_hwdevice_ctx_init`) result, and the
compile-time FFmpeg API selection. -/
structure InitEnv where
  isVulkan : Bool
  hasGpu : Bool
  extensions : List String
  families : List QueueFamily
  graphics_index : Nat
  graphics_count : Nat
  transfer_index : Nat
  transfer_count : Nat
  compute_index : Nat
  compute_count : Nat
  allocOk : Bool
  lockCtxOk : Bool
  backendOk : Bool
  newApi : Bool
deriving DecidableEq

/-- How `vulkan_init` returned. The first three all `return 0` without
enabling decode support; `error` is the `goto error; return -1` path. -/
inductive InitResultKind where
  | notVulkan
  | noGpu
  | noExtension
  | error
  | ok
deriving DecidableEq

/-- Observable outcome of `vulkan_init`: the return kind, whether the
device was registered with the device registry (`hwdec_devices_add`), which
build-time resources are still allocated when it returns (queue-family
descriptor arrays, decode device handle, Queue Arbitration Guard and its
mutex), and the queue-family assignment it recorded. -/
structure InitOutcome where
  result : InitResultKind
  registered : Bool
  qf_live : Bool
  device_live : Bool
  guard_live : Bool
  guard_mutex_live : Bool
  legacy : Option LegacyAssign
  multi : Option (List QfEntry)
deriving DecidableEq

/-- The decode-index scan of the legacy branch: ascending iteration over
the families, every decode-capable family overwriting the index (last one
wins), `-1` if none. -/
def legacyDecodeIndex (fams : List QueueFamily) : Int :=
  (fams.enum).foldl (fun acc p => if p.2.decode then (p.1 : Int) else acc) (-1)

/-- The full legacy single-queue assignment written into the decode device
handle (`queue_family_index` .. `nb_decode_queues`).  The decode queue
count reads `qf[decode_index].queueFamilyProperties.queueCount` when a
decode family was found, else 0. -/
def legacyAssign (env : InitEnv) : LegacyAssign :=
  let di := legacyDecodeIndex env.families
  { graphics_index := env.graphics_index
    nb_graphics := env.graphics_count
    tx_index := env.transfer_index
    nb_tx := env.transfer_count
    comp_index := env.compute_index
    nb_comp := env.compute_count
    decode_index := di
    nb_decode := if 0 ≤ di then (env.families.getD di.toNat ⟨0, false, 0⟩).count else 0 }

/-- The new-API queue-family entries: graphics, transfer and compute from
the libplacebo assignments, then one entry per decode-capable family, each
with its own codec-operations bitmask. -/
def multiQfEntries (env : InitEnv) : List QfEntry :=
  [⟨env.graphics_index, env.graphics_count, .graphics, 0⟩,
   ⟨env.transfer_index, env.transfer_count, .transfer, 0⟩,
   ⟨env.compute_index, env.compute_count, .compute, 0⟩]
  ++ (env.families.enum).filterMap (fun p =>
      if p.2.decode then some ⟨p.1, p.2.count, .decode, p.2.videoCaps⟩ else none)

/-- `vulkan_init`, the device-context builder.  Checks backend identity,
the `VK_KHR_video_decode_queue` device extension and a non-empty
queue-family enumeration, allocates the descriptor arrays, the decode
device handle and the queue lock guard, records the queue-family
assignment, hands the device to `av_hwdevice_ctx_init`, and on success
registers it with the device registry.  Every `goto error` frees the
descriptor arrays and unrefs the device handle; the guard is never freed
here (only `vulkan_uninit` destroys its mutex and frees it). -/
def vulkan_init (env : InitEnv) : InitOutcome :=
  if env.isVulkan = false then
    ⟨.notVulkan, false, false, false, false, false, none, none⟩
  else if env.hasGpu = false then
    ⟨.noGpu, false, false, false, false, false, none, none⟩
  else if env.extensions.contains "VK_KHR_video_decode_queue" = false then
    ⟨.noExtension, false, false, false, false, false, none, none⟩
  else if env.families.length = 0 then
    ⟨.error, false, false, false, false, false, none, none⟩
  else if env.allocOk = false then
    ⟨.error, false, false, false, false, false, none, none⟩
  else if env.lockCtxOk = false then
    ⟨.error, false, false, false, false, false, none, none⟩
  else
    let leg := if env.newApi then none else some (legacyAssign env)
    let mul := if env.newApi then some (multiQfEntries env) else none
    if env.backendOk = false then
      ⟨.error, false, false, false, true, true, leg, mul⟩
    else
      ⟨.ok, true, false, true, true, true, leg, mul⟩

/-! ### Supporting lemmas about the release loop of `mapper_unmap` -/

theorem unmapStep_tex (p : MapperPriv) (env : HoldEnv) (r : Fin 4 → Nat)
    (st : UnmapLoopSt) (i : Fin 4) :
    (unmapStep p env r st i).tex = Function.update st.tex i false := by
  unfold unmapStep
  by_cases hc : st.processed (mappingIndexF p.num_planes p.num_images i) = true
  · simp [hc]
  · simp [hc]

theorem unmapStep_stable (p : MapperPriv) (env : HoldEnv) (r : Fin 4 → Nat)
    (st : UnmapLoopSt) (i j : Fin 4) (h : st.processed j = true) :
    (unmapStep p env r st i).processed j = true ∧
    (unmapStep p env r st i).okA j = st.okA j ∧
    (unmapStep p env r st i).newLayoutA j = st.newLayoutA j := by
  unfold unmapStep
  by_cases hc : st.processed (mappingIndexF p.num_planes p.num_images i) = true
  · simp [hc, h]
  · have hne : j ≠ mappingIndexF p.num_planes p.num_images i := by
      intro he; rw [← he] at hc; exact hc h
    simp [hc, Function.update_apply, hne, h]

theorem foldl_unmapStep_stable (p : MapperPriv) (env : HoldEnv) (r : Fin 4 → Nat)
    (l : List (Fin 4)) (st : UnmapLoopSt) (j : Fin 4) (h : st.processed j = true) :
    (l.foldl (unmapStep p env r) st).processed j = true ∧
    (l.foldl (unmapStep p env r) st).okA j = st.okA j ∧
    (l.foldl (unmapStep p env r) st).newLayoutA j = st.newLayoutA j := by
  induction l generalizing st with
  | nil => exact ⟨h, rfl, rfl⟩
  | cons i rest ih =>
    simp only [List.foldl_cons]
    obtain ⟨h1, h2, h3⟩ := unmapStep_stable p env r st i j h
    obtain ⟨g1, g2, g3⟩ := ih (unmapStep p env r st i) h1
    exact ⟨g1, g2.trans h2, g3.trans h3⟩

theorem foldl_unmapStep_sets (p : MapperPriv) (env : HoldEnv) (r : Fin 4 → Nat)
    (l : List (Fin 4)) (st : UnmapLoopSt) (j : Fin 4)
    (h0 : st.processed j = false)
    (hmem : ∃ i ∈ l, mappingIndexF p.num_planes p.num_images i = j) :
    (l.foldl (unmapStep p env r) st).processed j = true ∧
    (l.foldl (unmapStep p env r) st).okA j = env.ok j ∧
    (l.foldl (unmapStep p env r) st).newLayoutA j = env.newLayout j := by
  induction l generalizing st with
  | nil => obtain ⟨i, hi, _⟩ := hmem; exact absurd hi (List.not_mem_nil i)
  | cons i rest ih =>
    simp only [List.foldl_cons]
    by_cases he : mappingIndexF p.num_planes p.num_images i = j
    · have hstep : (unmapStep p env r st i).processed j = true ∧
          (unmapStep p env r st i).okA j = env.ok j ∧
          (unmapStep p env r st i).newLayoutA j = env.newLayout j := by
        unfold unmapStep
        rw [he]
        simp [h0]
      obtain ⟨h1, h2, h3⟩ := hstep
      obtain ⟨g1, g2, g3⟩ := foldl_unmapStep_stable p env r rest _ j h1
      exact ⟨g1, g2.trans h2, g3.trans h3⟩
    · have hkeep : (unmapStep p env r st i).processed j = false := by
        unfold unmapStep
        by_cases hc : st.processed (mappingIndexF p.num_planes p.num_images i) = true
        · simp [hc, h0]
        · have hne : ¬ (j = mappingIndexF p.num_planes p.num_images i) :=
            fun hh => he hh.symm
          simp [hc, Function.update_apply, hne, h0]
      obtain ⟨i', hi', he'⟩ := hmem
      rcases List.mem_cons.mp hi' with rfl | hmem'
      · exact absurd he' he
      · exact ih _ hkeep ⟨i', hmem', he'⟩

theorem unmapStep_events (p : MapperPriv) (env : HoldEnv) (r : Fin 4 → Nat)
    (st : UnmapLoopSt) (i : Fin 4) :
    (unmapStep p env r st i).events = st.events ∨
    ((unmapStep p env r st i).events =
        st.events ++ [⟨mappingIndexF p.num_planes p.num_images i,
          p.sem (mappingIndexF p.num_planes p.num_images i),
          r (mappingIndexF p.num_planes p.num_images i)⟩] ∧
     st.processed (mappingIndexF p.num_planes p.num_images i) = false ∧
     (unmapStep p env r st i).processed
        (mappingIndexF p.num_planes p.num_images i) = true) := by
  unfold unmapStep
  by_cases hc : st.processed (mappingIndexF p.num_planes p.num_images i) = true
  · left; simp [hc]
  · right
    simp only [Bool.not_eq_true] at hc
    simp [hc]

/-- Invariant carried through the release loop: every recorded event's
image index is marked processed, the event indices are pairwise distinct,
and every event carries the snapshot semaphore and the reserved value of
its image index. -/
def EventsInv (p : MapperPriv) (r : Fin 4 → Nat) (st : UnmapLoopSt) : Prop :=
  (∀ e ∈ st.events, st.processed e.idx = true) ∧
  (st.events.map Release.idx).Nodup ∧
  (∀ e ∈ st.events, e.sem = p.sem e.idx ∧ e.value = r e.idx)

theorem unmapStep_eventsInv (p : MapperPriv) (env : HoldEnv) (r : Fin 4 → Nat)
    (st : UnmapLoopSt) (i : Fin 4) (h : EventsInv p r st) :
    EventsInv p r (unmapStep p env r st i) := by
  obtain ⟨h1, h2, h3⟩ := h
  rcases unmapStep_events p env r st i with he | ⟨he, hp0, hp1⟩
  · refine ⟨?_, ?_, ?_⟩
    · intro e hmem
      rw [he] at hmem
      exact (unmapStep_stable p env r st i e.idx (h1 e hmem)).1
    · rw [he]; exact h2
    · intro e hmem; rw [he] at hmem; exact h3 e hmem
  · refine ⟨?_, ?_, ?_⟩
    · intro e hmem
      rw [he, List.mem_append] at hmem
      rcases hmem with hm | hm
      · exact (unmapStep_stable p env r st i e.idx (h1 e hm)).1
      · simp only [List.mem_singleton] at hm
        subst hm
        exact hp1
    · rw [he, List.map_append, List.nodup_append]
      refine ⟨h2, List.nodup_singleton _, ?_⟩
      intro a ha hb
      simp only [List.map_cons, List.map_nil, List.mem_singleton] at hb
      subst hb
      simp only [List.mem_map] at ha
      obtain ⟨e, hmem, hee⟩ := ha
      have hpe := h1 e hmem
      rw [hee] at hpe
      rw [hpe] at hp0
      exact Bool.true_eq_false.mp hp0
    · intro e hmem
      rw [he, List.mem_append] at hmem
      rcases hmem with hm | hm
      · exact h3 e hm
      · simp only [List.mem_singleton] at hm
        subst hm
        exact ⟨rfl, rfl⟩

theorem foldl_unmapStep_eventsInv (p : MapperPriv) (env : HoldEnv) (r : Fin 4 → Nat)
    (l : List (Fin 4)) (st : UnmapLoopSt) (h : EventsInv p r st) :
    EventsInv p r (l.foldl (unmapStep p env r) st) := by
  induction l generalizing st with
  | nil => exact h
  | cons i rest ih => exact ih _ (unmapStep_eventsInv p env r st i h)

theorem foldl_unmapStep_tex_false (p : MapperPriv) (env : HoldEnv) (r : Fin 4 → Nat)
    (l : List (Fin 4)) (st : UnmapLoopSt) (j : Fin 4) (h : st.tex j = false) :
    (l.foldl (unmapStep p env r) st).tex j = false := by
  induction l generalizing st with
  | nil => exact h
  | cons i rest ih =>
    simp only [List.foldl_cons]
    apply ih
    rw [unmapStep_tex, Function.update_apply]
    by_cases hji : j = i <;> simp [hji, h]

theorem foldl_unmapStep_tex_cleared (p : MapperPriv) (env : HoldEnv) (r : Fin 4 → Nat)
    (l : List (Fin 4)) (st : UnmapLoopSt) (j : Fin 4) (h : j ∈ l) :
    (l.foldl (unmapStep p env r) st).tex j = false := by
  induction l generalizing st with
  | nil => exact absurd h (List.not_mem_nil j)
  | cons i rest ih =>
    simp only [List.foldl_cons]
    rcases List.mem_cons.mp h with rfl | hmem
    · apply foldl_unmapStep_tex_false
      rw [unmapStep_tex, Function.update_apply]
      simp
    · exact ih _ hmem

theorem touched_mem (p : MapperPriv) (i : Fin 4) (h : unmapTouched p i = true) :
    ∃ i' ∈ texScan p.tex, mappingIndexF p.num_planes p.num_images i' = i := by
  unfold unmapTouched willProcess at h
  rw [Bool.and_eq_true] at h
  obtain ⟨-, h2⟩ := h
  rw [List.any_eq_true] at h2
  obtain ⟨i', hmem, hbeq⟩ := h2
  exact ⟨i', hmem, beq_iff_eq.mp hbeq⟩

/-! ### Supporting lemmas about `mapper_unmap` as a whole -/

theorem endPath_src_comm (m : Mapper) (b : Bool) :
    endPath { m with src := b } = { endPath m with src := b } := rfl

theorem endPath_idem (m : Mapper) : endPath (endPath m) = endPath m := by
  unfold endPath
  congr 1
  funext i
  by_cases hc : (i : Nat) < m.priv.num_planes <;> simp [hc]

theorem unmap_shape (env : HoldEnv) (m : Mapper) (f : AVVkFrame)
    (m1 : Mapper) (f1 : AVVkFrame) (evs : List Release)
    (h : mapper_unmap env m f = some (m1, f1, evs)) : ∃ z, m1 = endPath z := by
  rw [mapper_unmap] at h
  by_cases h1 : m.src = false
  · rw [if_pos h1, Option.some.injEq] at h
    exact ⟨m, (Prod.mk.injEq _ _ _ _ ▸ h).1.symm⟩
  · rw [if_neg h1] at h
    by_cases h2 : m.priv.vkf = false
    · rw [if_pos h2] at h
      exact absurd h (by simp)
    · rw [if_neg h2, Option.some.injEq] at h
      exact ⟨_, (Prod.mk.injEq _ _ _ _ ▸ h).1.symm⟩

/-! ### Supporting lemmas about the plane loop of `mapper_map` -/

theorem mapPlanes_nil (env : MapEnv) (p : MapperPriv) (st : MapLoopSt) :
    mapPlanes env p [] st = (st, true) := by
  rw [mapPlanes]

theorem mapPlanes_cons_ok (env : MapEnv) (p : MapperPriv) (i : Fin 4)
    (rest : List (Fin 4)) (st : MapLoopSt) (idx : Fin 4) (a : Aspect)
    (hsel : planeSelect p.num_planes p.num_images i = some (idx, a))
    (hw : env.wrapOk i = true) (hw2 : env.wrapTexOk i = true) :
    mapPlanes env p (i :: rest) st =
      mapPlanes env p rest
        ⟨Function.update st.ptex i true,
         Function.update st.mtex i true,
         st.wraps ++ [⟨i.val, idx.val, p.img idx,
           mp_chroma_div_up env.hwfc_w (env.xs i),
           mp_chroma_div_up env.hwfc_h (env.ys i), env.vk_fmt i, a⟩]⟩ := by
  rw [mapPlanes, hsel]
  dsimp only
  rw [if_neg (by simp [hw]), if_neg (by simp [hw2])]

theorem mapPlanes_cons_err (env : MapEnv) (p : MapperPriv) (i : Fin 4)
    (rest : List (Fin 4)) (st : MapLoopSt)
    (hsel : planeSelect p.num_planes p.num_images i = none) :
    mapPlanes env p (i :: rest) st = (st, false) := by
  rw [mapPlanes, hsel]

theorem mapPlanes_wraps_mono (env : MapEnv) (p : MapperPriv) (l : List (Fin 4))
    (st : MapLoopSt) : ∃ t, (mapPlanes env p l st).1.wraps = st.wraps ++ t := by
  induction l generalizing st with
  | nil => exact ⟨[], by rw [mapPlanes, List.append_nil]⟩
  | cons i rest ih =>
    rw [mapPlanes]
    split
    · exact ⟨[], (List.append_nil _).symm⟩
    · split
      · exact ⟨_, rfl⟩
      · split
        · exact ⟨_, rfl⟩
        · obtain ⟨t, ht⟩ := ih { ptex := _, mtex := _, wraps := st.wraps ++ _ }
          rw [ht, List.append_assoc]
          exact ⟨_, rfl⟩

theorem planeSelect_zero (np ni : Nat) : ∃ pr, planeSelect np ni 0 = some pr := by
  rw [planeSelect]
  by_cases hc : 1 < np ∧ ni = 1
  · rw [if_pos hc]
    exact ⟨_, rfl⟩
  · rw [if_neg hc]
    exact ⟨_, rfl⟩

theorem mapPlanes_cons_wraps (env : MapEnv) (p : MapperPriv) (i : Fin 4)
    (rest : List (Fin 4)) (st : MapLoopSt) (idx : Fin 4) (a : Aspect)
    (hsel : planeSelect p.num_planes p.num_images i = some (idx, a)) :
    ∃ t, (mapPlanes env p (i :: rest) st).1.wraps =
      st.wraps ++ (⟨i.val, idx.val, p.img idx,
        mp_chroma_div_up env.hwfc_w (env.xs i),
        mp_chroma_div_up env.hwfc_h (env.ys i),
        env.vk_fmt i, a⟩ : WrapCall) :: t := by
  rw [mapPlanes, hsel]
  dsimp only
  split
  · exact ⟨[], rfl⟩
  · split
    · exact ⟨[], rfl⟩
    · obtain ⟨t, ht⟩ := mapPlanes_wraps_mono env p rest
        { ptex := _, mtex := _, wraps := st.wraps ++ _ }
      rw [ht, List.append_assoc]
      exact ⟨t, rfl⟩

theorem willProcess_iff (p : MapperPriv) (j : Fin 4) :
    willProcess p j = true ↔
      ∃ i ∈ texScan p.tex, mappingIndexF p.num_planes p.num_images i = j := by
  rw [willProcess, List.any_eq_true]
  constructor
  · rintro ⟨i, h1, h2⟩
    exact ⟨i, h1, beq_iff_eq.mp h2⟩
  · rintro ⟨i, h1, h2⟩
    exact ⟨i, h1, beq_iff_eq.mpr h2⟩

theorem finRange4 : List.finRange 4 = [0, 1, 2, 3] := by decide

theorem texScan_false (tex : Fin 4 → Bool) (h : ∀ i, tex i = false) :
    texScan tex = [] := by
  rw [texScan, finRange4]
  simp [List.takeWhile, h 0]

theorem texScan_upd1 (tex : Fin 4 → Bool) (h : ∀ i, tex i = false) :
    texScan (Function.update tex 0 true) = [0] := by
  rw [texScan, finRange4]
  simp [List.takeWhile, Function.update_apply, h 1]

theorem texScan_upd2 (tex : Fin 4 → Bool) (h : ∀ i, tex i = false) :
    texScan (Function.update (Function.update tex 0 true) 1 true) = [0, 1] := by
  rw [texScan, finRange4]
  simp [List.takeWhile, Function.update_apply, h 2]

theorem texScan_upd3 (tex : Fin 4 → Bool) (h : ∀ i, tex i = false) :
    texScan (Function.update (Function.update (Function.update tex 0 true) 1 true)
      2 true) = [0, 1, 2] := by
  rw [texScan, finRange4]
  simp [List.takeWhile, Function.update_apply, h 3]

theorem texScan_upd4 (tex : Fin 4 → Bool) :
    texScan (Function.update (Function.update (Function.update
      (Function.update tex 0 true) 1 true) 2 true) 3 true) = [0, 1, 2, 3] := by
  rw [texScan, finRange4]
  simp [List.takeWhile, Function.update_apply]

theorem countImages_le4 (f : AVVkFrame) : countImages f ≤ 4 := by
  rw [countImages]
  calc (List.takeWhile (fun i => f.img i != 0) (List.finRange 4)).length
      ≤ (List.finRange 4).length := List.Sublist.length_le (List.takeWhile_sublist _)
    _ = 4 := by rw [finRange4]; rfl

/-! ### Evaluation of the plane loop for each plane/image shape -/

theorem mapPlanes_mp2 (env : MapEnv) (p : MapperPriv) (st : MapLoopSt)
    (h1 : p.num_planes = 2) (h2 : p.num_images = 1)
    (hok : ∀ i, env.wrapOk i = true) (hok2 : ∀ i, env.wrapTexOk i = true) :
    mapPlanes env p [0, 1] st =
      (⟨Function.update (Function.update st.ptex 0 true) 1 true,
        Function.update (Function.update st.mtex 0 true) 1 true,
        st.wraps ++
          [⟨0, 0, p.img 0, mp_chroma_div_up env.hwfc_w (env.xs 0),
            mp_chroma_div_up env.hwfc_h (env.ys 0), env.vk_fmt 0, .plane0⟩,
           ⟨1, 0, p.img 0, mp_chroma_div_up env.hwfc_w (env.xs 1),
            mp_chroma_div_up env.hwfc_h (env.ys 1), env.vk_fmt 1, .plane1⟩]⟩, true) := by
  rw [mapPlanes_cons_ok env p 0 _ st 0 .plane0 (by rw [h1, h2]; decide) (hok 0) (hok2 0)]
  rw [mapPlanes_cons_ok env p 1 _ _ 0 .plane1 (by rw [h1, h2]; decide) (hok 1) (hok2 1)]
  rw [mapPlanes_nil]
  simp

theorem mapPlanes_mp3 (env : MapEnv) (p : MapperPriv) (st : MapLoopSt)
    (h1 : p.num_planes = 3) (h2 : p.num_images = 1)
    (hok : ∀ i, env.wrapOk i = true) (hok2 : ∀ i, env.wrapTexOk i = true) :
    mapPlanes env p [0, 1, 2] st =
      (⟨Function.update (Function.update (Function.update st.ptex 0 true) 1 true) 2 true,
        Function.update (Function.update (Function.update st.mtex 0 true) 1 true) 2 true,
        st.wraps ++
          [⟨0, 0, p.img 0, mp_chroma_div_up env.hwfc_w (env.xs 0),
            mp_chroma_div_up env.hwfc_h (env.ys 0), env.vk_fmt 0, .plane0⟩,
           ⟨1, 0, p.img 0, mp_chroma_div_up env.hwfc_w (env.xs 1),
            mp_chroma_div_up env.hwfc_h (env.ys 1), env.vk_fmt 1, .plane1⟩,
           ⟨2, 0, p.img 0, mp_chroma_div_up env.hwfc_w (env.xs 2),
            mp_chroma_div_up env.hwfc_h (env.ys 2), env.vk_fmt 2, .plane2⟩]⟩, true) := by
  rw [mapPlanes_cons_ok env p 0 _ st 0 .plane0 (by rw [h1, h2]; decide) (hok 0) (hok2 0)]
  rw [mapPlanes_cons_ok env p 1 _ _ 0 .plane1 (by rw [h1, h2]; decide) (hok 1) (hok2 1)]
  rw [mapPlanes_cons_ok env p 2 _ _ 0 .plane2 (by rw [h1, h2]; decide) (hok 2) (hok2 2)]
  rw [mapPlanes_nil]
  simp

theorem mapPlanes_mp4 (env : MapEnv) (p : MapperPriv) (st : MapLoopSt)
    (h1 : 1 < p.num_planes) (h2 : p.num_images = 1)
    (hok : ∀ i, env.wrapOk i = true) (hok2 : ∀ i, env.wrapTexOk i = true) :
    mapPlanes env p [0, 1, 2, 3] st =
      (⟨Function.update (Function.update (Function.update st.ptex 0 true) 1 true) 2 true,
        Function.update (Function.update (Function.update st.mtex 0 true) 1 true) 2 true,
        st.wraps ++
          [⟨0, 0, p.img 0, mp_chroma_div_up env.hwfc_w (env.xs 0),
            mp_chroma_div_up env.hwfc_h (env.ys 0), env.vk_fmt 0, .plane0⟩,
           ⟨1, 0, p.img 0, mp_chroma_div_up env.hwfc_w (env.xs 1),
            mp_chroma_div_up env.hwfc_h (env.ys 1), env.vk_fmt 1, .plane1⟩,
           ⟨2, 0, p.img 0, mp_chroma_div_up env.hwfc_w (env.xs 2),
            mp_chroma_div_up env.hwfc_h (env.ys 2), env.vk_fmt 2, .plane2⟩]⟩, false) := by
  have hs0 : planeSelect p.num_planes p.num_images 0 = some (0, .plane0) := by
    rw [planeSelect, if_pos ⟨h1, h2⟩]
  have hs1 : planeSelect p.num_planes p.num_images 1 = some (0, .plane1) := by
    rw [planeSelect, if_pos ⟨h1, h2⟩]
  have hs2 : planeSelect p.num_planes p.num_images 2 = some (0, .plane2) := by
    rw [planeSelect, if_pos ⟨h1, h2⟩]
  have hs3 : planeSelect p.num_planes p.num_images 3 = none := by
    rw [planeSelect, if_pos ⟨h1, h2⟩]
  rw [mapPlanes_cons_ok env p 0 _ st 0 .plane0 hs0 (hok 0) (hok2 0)]
  rw [mapPlanes_cons_ok env p 1 _ _ 0 .plane1 hs1 (hok 1) (hok2 1)]
  rw [mapPlanes_cons_ok env p 2 _ _ 0 .plane2 hs2 (hok 2) (hok2 2)]
  rw [mapPlanes_cons_err env p 3 _ _ hs3]
  simp

theorem planeSelect_id (np ni : Nat) (i : Fin 4)
    (hcond : ¬(1 < np ∧ ni = 1)) : planeSelect np ni i = some (i, .color) := by
  rw [planeSelect, if_neg hcond]

theorem mapPlanes_id1 (env : MapEnv) (p : MapperPriv) (st : MapLoopSt)
    (hcond : ¬(1 < p.num_planes ∧ p.num_images = 1))
    (hok : ∀ i, env.wrapOk i = true) (hok2 : ∀ i, env.wrapTexOk i = true) :
    mapPlanes env p [0] st =
      (⟨Function.update st.ptex 0 true, Function.update st.mtex 0 true,
        st.wraps ++
          [⟨0, 0, p.img 0, mp_chroma_div_up env.hwfc_w (env.xs 0),
            mp_chroma_div_up env.hwfc_h (env.ys 0), env.vk_fmt 0, .color⟩]⟩, true) := by
  rw [mapPlanes_cons_ok env p 0 _ st 0 .color (planeSelect_id _ _ 0 hcond) (hok 0) (hok2 0)]
  rw [mapPlanes_nil]
  simp

theorem mapPlanes_id2 (env : MapEnv) (p : MapperPriv) (st : MapLoopSt)
    (hcond : ¬(1 < p.num_planes ∧ p.num_images = 1))
    (hok : ∀ i, env.wrapOk i = true) (hok2 : ∀ i, env.wrapTexOk i = true) :
    mapPlanes env p [0, 1] st =
      (⟨Function.update (Function.update st.ptex 0 true) 1 true,
        Function.update (Function.update st.mtex 0 true) 1 true,
        st.wraps ++
          [⟨0, 0, p.img 0, mp_chroma_div_up env.hwfc_w (env.xs 0),
            mp_chroma_div_up env.hwfc_h (env.ys 0), env.vk_fmt 0, .color⟩,
           ⟨1, 1, p.img 1, mp_chroma_div_up env.hwfc_w (env.xs 1),
            mp_chroma_div_up env.hwfc_h (env.ys 1), env.vk_fmt 1, .color⟩]⟩, true) := by
  rw [mapPlanes_cons_ok env p 0 _ st 0 .color (planeSelect_id _ _ 0 hcond) (hok 0) (hok2 0)]
  rw [mapPlanes_cons_ok env p 1 _ _ 1 .color (planeSelect_id _ _ 1 hcond) (hok 1) (hok2 1)]
  rw [mapPlanes_nil]
  simp

theorem mapPlanes_id3 (env : MapEnv) (p : MapperPriv) (st : MapLoopSt)
    (hcond : ¬(1 < p.num_planes ∧ p.num_images = 1))
    (hok : ∀ i, env.wrapOk i = true) (hok2 : ∀ i, env.wrapTexOk i = true) :
    mapPlanes env p [0, 1, 2] st =
      (⟨Function.update (Function.update (Function.update st.ptex 0 true) 1 true) 2 true,
        Function.update (Function.update (Function.update st.mtex 0 true) 1 true) 2 true,
        st.wraps ++
          [⟨0, 0, p.img 0, mp_chroma_div_up env.hwfc_w (env.xs 0),
            mp_chroma_div_up env.hwfc_h (env.ys 0), env.vk_fmt 0, .color⟩,
           ⟨1, 1, p.img 1, mp_chroma_div_up env.hwfc_w (env.xs 1),
            mp_chroma_div_up env.hwfc_h (env.ys 1), env.vk_fmt 1, .color⟩,
           ⟨2, 2, p.img 2, mp_chroma_div_up env.hwfc_w (env.xs 2),
            mp_chroma_div_up env.hwfc_h (env.ys 2), env.vk_fmt 2, .color⟩]⟩, true) := by
  rw [mapPlanes_cons_ok env p 0 _ st 0 .color (planeSelect_id _ _ 0 hcond) (hok 0) (hok2 0)]
  rw [mapPlanes_cons_ok env p 1 _ _ 1 .color (planeSelect_id _ _ 1 hcond) (hok 1) (hok2 1)]
  rw [mapPlanes_cons_ok env p 2 _ _ 2 .color (planeSelect_id _ _ 2 hcond) (hok 2) (hok2 2)]
  rw [mapPlanes_nil]
  simp

theorem mapPlanes_id4 (env : MapEnv) (p : MapperPriv) (st : MapLoopSt)
    (hcond : ¬(1 < p.num_planes ∧ p.num_images = 1))
    (hok : ∀ i, env.wrapOk i = true) (hok2 : ∀ i, env.wrapTexOk i = true) :
    mapPlanes env p [0, 1, 2, 3] st =
      (⟨Function.update (Function.update (Function.update
          (Function.update st.ptex 0 true) 1 true) 2 true) 3 true,
        Function.update (Function.update (Function.update
          (Function.update st.mtex 0 true) 1 true) 2 true) 3 true,
        st.wraps ++
          [⟨0, 0, p.img 0, mp_chroma_div_up env.hwfc_w (env.xs 0),
            mp_chroma_div_up env.hwfc_h (env.ys 0), env.vk_fmt 0, .color⟩,
           ⟨1, 1, p.img 1, mp_chroma_div_up env.hwfc_w (env.xs 1),
            mp_chroma_div_up env.hwfc_h (env.ys 1), env.vk_fmt 1, .color⟩,
           ⟨2, 2, p.img 2, mp_chroma_div_up env.hwfc_w (env.xs 2),
            mp_chroma_div_up env.hwfc_h (env.ys 2), env.vk_fmt 2, .color⟩,
           ⟨3, 3, p.img 3, mp_chroma_div_up env.hwfc_w (env.xs 3),
            mp_chroma_div_up env.hwfc_h (env.ys 3), env.vk_fmt 3, .color⟩]⟩, true) := by
  rw [mapPlanes_cons_ok env p 0 _ st 0 .color (planeSelect_id _ _ 0 hcond) (hok 0) (hok2 0)]
  rw [mapPlanes_cons_ok env p 1 _ _ 1 .color (planeSelect_id _ _ 1 hcond) (hok 1) (hok2 1)]
  rw [mapPlanes_cons_ok env p 2 _ _ 2 .color (planeSelect_id _ _ 2 hcond) (hok 2) (hok2 2)]
  rw [mapPlanes_cons_ok env p 3 _ _ 3 .color (planeSelect_id _ _ 3 hcond) (hok 3) (hok2 3)]
  rw [mapPlanes_nil]
  simp
  decide

/-! ### Concrete example states used by witnesses and counterexamples -/

/-- A capacity-4 array of naturals given by its four entries. -/
def arr4 (a b c d : Nat) : Fin 4 → Nat := fun i => [a, b, c, d].getD i.val 0

/-- A capacity-4 array of booleans given by its four entries. -/
def bool4 (a b c d : Bool) : Fin 4 → Bool := fun i => [a, b, c, d].getD i.val false

/-- A native frame with two physical images (handles 11 and 12). -/
def exFrame2 : AVVkFrame :=
  ⟨arr4 11 12 0 0, arr4 100 101 0 0, arr4 7 8 0 0, arr4 5 6 0 0, arr4 1 1 0 0⟩

/-- A mapped session over `exFrame2`: two planes on two images (identity
mapping), both plane textures live, native frame reference recorded. -/
def exMapper2 : Mapper :=
  ⟨true,
   ⟨2, 1920, 1080, true, bool4 true true false false, arr4 11 12 0 0,
    arr4 100 101 0 0, arr4 7 8 0 0, arr4 5 6 0 0, 2⟩,
   bool4 true true false false⟩

/-- A hold oracle where the release of image 0 succeeds (reporting layout
200) and the release of image 1 fails. -/
def exHold : HoldEnv := ⟨bool4 true false true true, arr4 200 201 202 203⟩

/-- A native frame with a single physical image (handle 11). -/
def exFrame1 : AVVkFrame :=
  ⟨arr4 11 0 0 0, arr4 100 0 0 0, arr4 7 0 0 0, arr4 5 0 0 0, arr4 1 0 0 0⟩

/-- A fresh two-plane session (nothing mapped yet, no frame reference). -/
def exFresh2 : Mapper :=
  ⟨true,
   ⟨2, 1920, 1080, false, bool4 false false false false, arr4 0 0 0 0,
    arr4 0 0 0 0, arr4 0 0 0 0, arr4 0 0 0 0, 0⟩,
   bool4 false false false false⟩

/-- A fresh three-plane session. -/
def exFresh3 : Mapper :=
  ⟨true,
   ⟨3, 1920, 1080, false, bool4 false false false false, arr4 0 0 0 0,
    arr4 0 0 0 0, arr4 0 0 0 0, arr4 0 0 0 0, 0⟩,
   bool4 false false false false⟩

/-- An import environment for a 1920x1080 logical frame whose frames
context reports 1920x1088; luma plane unshifted, chroma shifted by one;
every backend call succeeds. -/
def exMapEnv : MapEnv :=
  ⟨true, 1920, 1088, arr4 40 41 42 43, arr4 0 1 1 0, arr4 0 1 1 0,
   fun _ => true, fun _ => true, exHold⟩

/-- An import environment where the very first `pl_vulkan_wrap` fails. -/
def exMapEnvBad : MapEnv :=
  ⟨true, 1920, 1088, arr4 40 41 42 43, arr4 0 1 1 0, arr4 0 1 1 0,
   fun _ => false, fun _ => true, exHold⟩

/-- A native frame with two physical images and no access flags set. -/
def exFrame2b : AVVkFrame :=
  ⟨arr4 21 22 0 0, arr4 100 101 0 0, arr4 7 8 0 0, arr4 5 6 0 0, arr4 0 0 0 0⟩

/-- Three queue families; only family 2 is decode-capable
(codec operations bitmask 7, queue count 2). -/
def exFams3 : List QueueFamily := [⟨1, false, 0⟩, ⟨1, false, 0⟩, ⟨2, true, 7⟩]

/-- Five queue families with a second decode-capable family at index 4
(codec operations bitmask 9, queue count 3). -/
def exFams5 : List QueueFamily := exFams3 ++ [⟨1, false, 0⟩, ⟨3, true, 9⟩]

/-- A fully healthy legacy-API device build environment over `exFams3`. -/
def exInit3 : InitEnv :=
  ⟨true, true, ["VK_KHR_video_decode_queue"], exFams3,
   0, 4, 1, 2, 0, 4, true, true, true, false⟩

/-- The same environment with the second decode family added. -/
def exInit5 : InitEnv := { exInit3 with families := exFams5 }

/-- The five-family environment built with the new (multi-queue) API. -/
def exInit5m : InitEnv := { exInit5 with newApi := true }

/-- A device whose single queue family has no decode capability. -/
def exInitNoDecode : InitEnv := { exInit3 with families := [⟨1, false, 0⟩] }

/-- A device build where `av_hwdevice_ctx_init` fails. -/
def exInitBackendFail : InitEnv := { exInit3 with backendOk := false }

/-- An otherwise healthy device build enumerating zero queue families. -/
def exInitNoFamilies : InitEnv := { exInit3 with families := [] }

/-! ### The claims -/

/-- C1: during Export, every physical image touched by the session has its
synchronization counter incremented under the frame lock before the GPU
release is issued, and the release for that image carries the
pre-increment-plus-one value as the signal value; afterwards, under the
second lock acquisition, an image whose release succeeded has its counter
net incremented by exactly 1 and its layout set to the layout reported by
the release, while an image whose release failed has its counter rolled
back to its value before Export began. -/
theorem export_reserve_commit_rollback (env : HoldEnv) (m : Mapper)
    (f : AVVkFrame) (i : Fin 4)
    (hsrc : m.src = true) (hvkf : m.priv.vkf = true)
    (htouch : unmapTouched m.priv i = true) :
    ∀ r ∈ mapper_unmap env m f,
      ((env.ok i = true →
          (r.2.1).sem_value i = f.sem_value i + 1 ∧
          (r.2.1).layout i = env.newLayout i) ∧
       (env.ok i = false → (r.2.1).sem_value i = f.sem_value i) ∧
       (∀ e ∈ r.2.2, e.idx = i → e.value = f.sem_value i + 1)) := by
  intro r hr
  rw [Option.mem_def] at hr
  rw [mapper_unmap] at hr
  rw [hsrc, hvkf] at hr
  simp only [Bool.true_eq_false, if_false] at hr
  rw [Option.some.injEq] at hr
  subst hr
  set p := m.priv with hp
  set reserved : Fin 4 → Nat := fun j =>
    if unmapTouched p j then f.sem_value j + 1 else 0 with hres
  set st0 : UnmapLoopSt := ⟨fun _ => false, fun _ => false, fun _ => 0, p.tex, []⟩
    with hst0
  set st := (texScan p.tex).foldl (unmapStep p env reserved) st0 with hst
  have hset : st.okA i = env.ok i ∧ st.newLayoutA i = env.newLayout i := by
    have hmem := touched_mem p i htouch
    have hs := foldl_unmapStep_sets p env reserved (texScan p.tex) st0 i rfl hmem
    exact ⟨hs.2.1, hs.2.2⟩
  have hinv : EventsInv p reserved st :=
    foldl_unmapStep_eventsInv p env reserved _ st0
      ⟨by intro e h; exact absurd h (List.not_mem_nil e), List.nodup_nil,
       by intro e h; exact absurd h (List.not_mem_nil e)⟩
  refine ⟨?_, ?_, ?_⟩
  · intro hok
    constructor
    · show (if unmapTouched p i && !(st.okA i) then reserved i - 1
            else if unmapTouched p i then f.sem_value i + 1 else f.sem_value i) = _
      rw [hset.1, hok]
      simp [htouch]
    · show (if unmapTouched p i && st.okA i then st.newLayoutA i
            else f.layout i) = _
      rw [hset.1, hset.2, hok]
      simp [htouch]
  · intro hok
    show (if unmapTouched p i && !(st.okA i) then reserved i - 1
          else if unmapTouched p i then f.sem_value i + 1 else f.sem_value i) = _
    rw [hset.1, hok]
    simp [htouch, hres]
  · intro e hmem hei
    have hv := (hinv.2.2 e hmem).2
    rw [hv, hei, hres]
    simp [htouch]

theorem export_reserve_commit_rollback_witness :
    exMapper2.src = true ∧ exMapper2.priv.vkf = true ∧
    unmapTouched exMapper2.priv 0 = true ∧
    (∀ r ∈ mapper_unmap exHold exMapper2 exFrame2,
      ((exHold.ok 0 = true →
          (r.2.1).sem_value 0 = exFrame2.sem_value 0 + 1 ∧
          (r.2.1).layout 0 = exHold.newLayout 0) ∧
       (exHold.ok 0 = false → (r.2.1).sem_value 0 = exFrame2.sem_value 0) ∧
       (∀ e ∈ r.2.2, e.idx = 0 → e.value = exFrame2.sem_value 0 + 1))) :=
  ⟨by decide, by decide, by decide,
   export_reserve_commit_rollback exHold exMapper2 exFrame2 0
     (by decide) (by decide) (by decide)⟩

/-- C7: Export is idempotent at the session level: after one successful
Export no native frame reference remains (neither the session's recorded
frame pointer nor the source-image reference), and a second Export is a
no-op returning the same session and frame and issuing no releases. -/
theorem export_twice_idempotent (env env2 : HoldEnv) (m : Mapper)
    (f : AVVkFrame) :
    ∀ r ∈ session_export env m f,
      r.1.priv.vkf = false ∧ r.1.src = false ∧
      session_export env2 r.1 r.2.1 = some (r.1, r.2.1, []) := by
  intro r hr
  rw [Option.mem_def] at hr
  rw [session_export] at hr
  cases hu : mapper_unmap env m f with
  | none => rw [hu] at hr; exact absurd hr (by simp)
  | some x =>
    obtain ⟨m1, f1, evs⟩ := x
    rw [hu, Option.some.injEq] at hr
    subst hr
    obtain ⟨z, rfl⟩ := unmap_shape env m f m1 f1 evs hu
    refine ⟨rfl, rfl, ?_⟩
    have hm : mapper_unmap env2 { endPath z with src := false } f1 =
        some (endPath { endPath z with src := false }, f1, []) := by
      rw [mapper_unmap]
      rw [if_pos rfl]
    rw [session_export, hm]
    rw [endPath_src_comm, endPath_idem]

theorem export_twice_idempotent_witness :
    (session_export exHold exMapper2 exFrame2).isSome = true ∧
    (∀ r ∈ session_export exHold exMapper2 exFrame2,
      r.1.priv.vkf = false ∧ r.1.src = false ∧
      session_export exHold r.1 r.2.1 = some (r.1, r.2.1, [])) :=
  ⟨by decide, export_twice_idempotent exHold exHold exMapper2 exFrame2⟩

/-- C9: during Export the GPU release call is issued at most once per
touched physical image — the issued release trace carries pairwise
distinct image indices — and every scanned plane's session texture slot is
cleared, including the extra planes of a shared image. -/
theorem export_release_once_per_image (env : HoldEnv) (m : Mapper)
    (f : AVVkFrame) (hsrc : m.src = true) (hvkf : m.priv.vkf = true) :
    ∀ r ∈ mapper_unmap env m f,
      ((r.2.2).map Release.idx).Nodup ∧
      (∀ i ∈ texScan m.priv.tex, r.1.priv.tex i = false) := by
  intro r hr
  rw [Option.mem_def] at hr
  rw [mapper_unmap] at hr
  rw [hsrc, hvkf] at hr
  simp only [Bool.true_eq_false, if_false] at hr
  rw [Option.some.injEq] at hr
  subst hr
  set p := m.priv with hp
  set reserved : Fin 4 → Nat := fun j =>
    if unmapTouched p j then f.sem_value j + 1 else 0 with hres
  set st0 : UnmapLoopSt := ⟨fun _ => false, fun _ => false, fun _ => 0, p.tex, []⟩
    with hst0
  set st := (texScan p.tex).foldl (unmapStep p env reserved) st0 with hst
  have hinv : EventsInv p reserved st :=
    foldl_unmapStep_eventsInv p env reserved _ st0
      ⟨by intro e h; exact absurd h (List.not_mem_nil e), List.nodup_nil,
       by intro e h; exact absurd h (List.not_mem_nil e)⟩
  constructor
  · exact hinv.2.1
  · intro i hi
    show st.tex i = false
    exact foldl_unmapStep_tex_cleared p env reserved (texScan p.tex) st0 i hi

theorem export_release_once_per_image_witness :
    exMapper2.src = true ∧ exMapper2.priv.vkf = true ∧
    (∀ r ∈ mapper_unmap exHold exMapper2 exFrame2,
      ((r.2.2).map Release.idx).Nodup ∧
      (∀ i ∈ texScan exMapper2.priv.tex, r.1.priv.tex i = false)) :=
  ⟨by decide, by decide,
   export_release_once_per_image exHold exMapper2 exFrame2 (by decide) (by decide)⟩

/-- C10: on a session whose native frame reference is not yet recorded
(the reachable state at every import), Import returns the decoder-owned
native frame unchanged — every write to it happens only during Export —
and, whenever the snapshot was taken, the session holds exact copies of
the frame's image handles, layouts, semaphore handles and counter values
for every physical image. -/
theorem import_preserves_native_frame (env : MapEnv) (m : Mapper)
    (f : AVVkFrame) (hvkf : m.priv.vkf = false) :
    (mapper_map env m f).f = f ∧
    ((mapper_map env m f).outcome ≠ .noContext →
      (mapper_map env m f).m.priv.num_images = countImages f ∧
      ∀ i : Fin 4, (i : Nat) < countImages f →
        (mapper_map env m f).m.priv.img i = f.img i ∧
        (mapper_map env m f).m.priv.img_layout i = f.layout i ∧
        (mapper_map env m f).m.priv.sem i = f.sem i ∧
        (mapper_map env m f).m.priv.sem_value i = f.sem_value i) := by
  rw [mapper_map]
  split
  · exact ⟨rfl, fun h => absurd rfl h⟩
  · dsimp only
    split
    · refine ⟨rfl, fun _ => ⟨rfl, ?_⟩⟩
      intro i hi
      refine ⟨?_, ?_, ?_, ?_⟩ <;> simp [hi]
    · split
      · refine ⟨rfl, fun _ => ⟨rfl, ?_⟩⟩
        intro i hi
        refine ⟨?_, ?_, ?_, ?_⟩ <;> simp [hi]
      · next m2f2 heq =>
        rw [mapper_unmap] at heq
        by_cases hs : m.src = false
        · rw [if_pos hs, Option.some.injEq, Prod.mk.injEq, Prod.mk.injEq] at heq
          obtain ⟨h1, h2, h3⟩ := heq
          subst h1
          subst h2
          refine ⟨rfl, fun _ => ⟨rfl, ?_⟩⟩
          intro i hi
          refine ⟨?_, ?_, ?_, ?_⟩ <;> simp [endPath, hi]
        · rw [if_neg hs, if_pos hvkf] at heq
          exact absurd heq (by simp)

theorem import_preserves_native_frame_witness :
    exFresh2.priv.vkf = false ∧
    ((mapper_map exMapEnv exFresh2 exFrame1).f = exFrame1 ∧
     ((mapper_map exMapEnv exFresh2 exFrame1).outcome ≠ .noContext →
       (mapper_map exMapEnv exFresh2 exFrame1).m.priv.num_images =
         countImages exFrame1 ∧
       ∀ i : Fin 4, (i : Nat) < countImages exFrame1 →
         (mapper_map exMapEnv exFresh2 exFrame1).m.priv.img i = exFrame1.img i ∧
         (mapper_map exMapEnv exFresh2 exFrame1).m.priv.img_layout i =
           exFrame1.layout i ∧
         (mapper_map exMapEnv exFresh2 exFrame1).m.priv.sem i = exFrame1.sem i ∧
         (mapper_map exMapEnv exFresh2 exFrame1).m.priv.sem_value i =
           exFrame1.sem_value i)) :=
  ⟨by decide, import_preserves_native_frame exMapEnv exFresh2 exFrame1 (by decide)⟩

/-- C3 (counterexample): for the 1920x1080 logical frame backed by a
1920x1088 frames-context image, the texture wrapped for the luma plane has
height 1088 (the frames-context size), not the logical height 1080 the
claim demands. -/
theorem wrap_geometry_counterexample :
    exFresh2.priv.w = 1920 ∧ exFresh2.priv.h = 1080 ∧
    exMapEnv.hwfc_w = 1920 ∧ exMapEnv.hwfc_h = 1088 ∧
    ((mapper_map exMapEnv exFresh2 exFrame1).wraps.head?).map
        (fun w => (w.width, w.height)) = some (1920, 1088) ∧
    ((mapper_map exMapEnv exFresh2 exFrame1).wraps.head?).map
        (fun w => (w.width, w.height)) ≠ some (1920, 1080) := by
  decide

/-- C3 (amended): the texture wrapped for the luma plane at import always
takes its geometry from the HW frames context (1920x1088 in the scenario),
not from the logical frame size — the plane-0 wrap call has exactly the
frames-context width and height divided by the plane's chroma shifts. -/
theorem wrap_uses_frames_context_geometry (env : MapEnv) (m : Mapper)
    (f : AVVkFrame) (hvk : env.vkOk = true) (hnp : 1 ≤ m.priv.num_planes) :
    ((mapper_map env m f).wraps.head?).map (fun w => (w.width, w.height)) =
      some (mp_chroma_div_up env.hwfc_w (env.xs 0),
        mp_chroma_div_up env.hwfc_h (env.ys 0)) := by
  rw [mapper_map]
  rw [if_neg (by simp [hvk])]
  have hplanes : List.takeWhile (fun i => decide ((i : Fin 4).val < m.priv.num_planes))
      (List.finRange 4) =
      0 :: List.takeWhile (fun i => decide ((i : Fin 4).val < m.priv.num_planes))
        [1, 2, 3] := by
    rw [finRange4, List.takeWhile_cons]
    simp only [Fin.val_zero, decide_eq_true_eq]
    rw [if_pos (by omega)]
  dsimp only
  rw [hplanes]
  obtain ⟨⟨idx, a⟩, hsel⟩ := planeSelect_zero m.priv.num_planes (countImages f)
  have hcw := mapPlanes_cons_wraps env
    ⟨m.priv.num_planes, m.priv.w, m.priv.h, m.priv.vkf, m.priv.tex,
      fun i => if (i : Nat) < countImages f then f.img i else m.priv.img i,
      fun i => if (i : Nat) < countImages f then f.layout i else m.priv.img_layout i,
      fun i => if (i : Nat) < countImages f then f.sem i else m.priv.sem i,
      fun i => if (i : Nat) < countImages f then f.sem_value i else m.priv.sem_value i,
      countImages f⟩ 0
    (List.takeWhile (fun i => decide ((i : Fin 4).val < m.priv.num_planes)) [1, 2, 3])
    ⟨m.priv.tex, m.tex, []⟩ idx a hsel
  obtain ⟨t, ht⟩ := hcw
  split
  · next st hmp =>
    rw [hmp] at ht
    dsimp only at ht ⊢
    rw [ht]
    rfl
  · next st hmp =>
    rw [hmp] at ht
    split <;>
    · dsimp only at ht ⊢
      rw [ht]
      rfl

theorem wrap_uses_frames_context_geometry_witness :
    exMapEnv.vkOk = true ∧ 1 ≤ exFresh2.priv.num_planes ∧
    ((mapper_map exMapEnv exFresh2 exFrame1).wraps.head?).map
        (fun w => (w.width, w.height)) =
      some (mp_chroma_div_up exMapEnv.hwfc_w (exMapEnv.xs 0),
        mp_chroma_div_up exMapEnv.hwfc_h (exMapEnv.ys 0)) :=
  ⟨by decide, by decide,
   wrap_uses_frames_context_geometry exMapEnv exFresh2 exFrame1
     (by decide) (by decide)⟩

/-- C6: when Export runs with no recorded native frame reference but a
still-set source image — exactly the state every failed import hands to
its unwind — the code does not skip the synchronization bookkeeping: it
dereferences the NULL frame pointer (`vkfc->lock_frame(hwfc, vkf)` and
`++vkf->sem_value[i]`), modelled as the crashing `none` result, and a
mapping attempt failing on its first wrap therefore ends in that crash
instead of returning after releasing its textures. -/
theorem export_null_frame_reference_crash :
    mapper_unmap exHold exFresh2 exFrame1 = none ∧
    (mapper_map exMapEnvBad exFresh2 exFrame1).outcome = MapOutcome.unwindCrash := by
  decide

/-- C2 (counterexample): a three-plane frame backed by two physical images
has more logical planes than physical images, yet the import wraps plane
`i` from image `i` (indices 0, 1, 2), not every plane from image 0 as the
claim states — the shared-image collapse only triggers when the physical
image count is exactly 1. -/
theorem plane_mapping_rule_counterexample :
    exFresh3.priv.num_planes = 3 ∧ countImages exFrame2b = 2 ∧
    (mapper_map exMapEnv exFresh3 exFrame2b).wraps.map
        (fun w => w.imageIndex) = [0, 1, 2] ∧
    ¬(∀ w ∈ (mapper_map exMapEnv exFresh3 exFrame2b).wraps, w.imageIndex = 0) := by
  decide

/-- C2 (amended): when the logical plane count exceeds 1 and the physical
image count is exactly 1, every plane is wrapped from image index 0 with
the distinct per-plane aspect masks 0/1/2, a fourth plane in such a
shared-image frame aborts the import, and the only image Export treats as
touched is image 0; when the physical image count equals the logical plane
count, plane `i` is wrapped from image `i` with the plain color aspect and
Export treats exactly images `0..count-1` as touched; frames with
`1 < images < planes` also use the identity mapping; and the index chosen
by the import-side selection always coincides with the export-side mapping
rule. -/
theorem plane_mapping_rule_amended (env : MapEnv) (m : Mapper) (f : AVVkFrame)
    (hvk : env.vkOk = true)
    (htex : ∀ i, m.priv.tex i = false)
    (hok : ∀ i, env.wrapOk i = true)
    (hok2 : ∀ i, env.wrapTexOk i = true) :
    (countImages f = 1 → 1 < m.priv.num_planes → m.priv.num_planes ≤ 3 →
      (mapper_map env m f).outcome = .success ∧
      (∀ w ∈ (mapper_map env m f).wraps, w.imageIndex = 0 ∧
        (w.plane = 0 → w.aspect = .plane0) ∧
        (w.plane = 1 → w.aspect = .plane1) ∧
        (w.plane = 2 → w.aspect = .plane2)) ∧
      (mapper_map env m f).wraps.map (fun w => w.plane) =
        List.range m.priv.num_planes ∧
      (∀ j : Fin 4, willProcess (mapper_map env m f).m.priv j = true ↔ j = 0)) ∧
    (countImages f = 1 → 4 ≤ m.priv.num_planes →
      (mapper_map env m f).outcome ≠ .success ∧
      (∀ w ∈ (mapper_map env m f).wraps, w.plane ≤ 2)) ∧
    (countImages f = m.priv.num_planes →
      (mapper_map env m f).outcome = .success ∧
      (∀ w ∈ (mapper_map env m f).wraps, w.imageIndex = w.plane ∧
        w.aspect = .color) ∧
      (∀ j : Fin 4, willProcess (mapper_map env m f).m.priv j = true ↔
        (j : Nat) < m.priv.num_planes)) ∧
    (∀ np ni : Nat, ∀ i j : Fin 4, ∀ a : Aspect,
      planeSelect np ni i = some (j, a) → mappingIndexF np ni i = j) := by
  refine ⟨?_, ?_, ?_, ?_⟩
  · intro hni h1 h2
    rw [mapper_map, if_neg (by simp [hvk])]
    dsimp only
    rw [hni]
    have hd : m.priv.num_planes = 2 ∨ m.priv.num_planes = 3 := by omega
    rcases hd with hnp | hnp <;> rw [hnp]
    · have hpl : List.takeWhile (fun i => decide ((i : Fin 4).val < 2))
          (List.finRange 4) = [0, 1] := by decide
      rw [hpl]
      have hmp := mapPlanes_mp2 env
        ⟨2, m.priv.w, m.priv.h, m.priv.vkf, m.priv.tex,
          fun i => if (i : Nat) < 1 then f.img i else m.priv.img i,
          fun i => if (i : Nat) < 1 then f.layout i else m.priv.img_layout i,
          fun i => if (i : Nat) < 1 then f.sem i else m.priv.sem i,
          fun i => if (i : Nat) < 1 then f.sem_value i else m.priv.sem_value i,
          1⟩ ⟨m.priv.tex, m.tex, []⟩ rfl rfl hok hok2
      rw [hmp]
      dsimp only
      refine ⟨rfl, ?_, by simp [List.range_succ], ?_⟩
      · intro w hw
        simp only [List.nil_append, List.mem_cons, List.not_mem_nil, or_false] at hw
        rcases hw with rfl | rfl <;> exact ⟨rfl, by simp, by simp, by simp⟩
      · intro j
        rw [willProcess_iff]
        dsimp only
        rw [texScan_upd2 _ htex]
        fin_cases j <;> decide
    · have hpl : List.takeWhile (fun i => decide ((i : Fin 4).val < 3))
          (List.finRange 4) = [0, 1, 2] := by decide
      rw [hpl]
      have hmp := mapPlanes_mp3 env
        ⟨3, m.priv.w, m.priv.h, m.priv.vkf, m.priv.tex,
          fun i => if (i : Nat) < 1 then f.img i else m.priv.img i,
          fun i => if (i : Nat) < 1 then f.layout i else m.priv.img_layout i,
          fun i => if (i : Nat) < 1 then f.sem i else m.priv.sem i,
          fun i => if (i : Nat) < 1 then f.sem_value i else m.priv.sem_value i,
          1⟩ ⟨m.priv.tex, m.tex, []⟩ rfl rfl hok hok2
      rw [hmp]
      dsimp only
      refine ⟨rfl, ?_, by simp [List.range_succ], ?_⟩
      · intro w hw
        simp only [List.nil_append, List.mem_cons, List.not_mem_nil, or_false] at hw
        rcases hw with rfl | rfl | rfl <;> exact ⟨rfl, by simp, by simp, by simp⟩
      · intro j
        rw [willProcess_iff]
        dsimp only
        rw [texScan_upd3 _ htex]
        fin_cases j <;> decide
  · intro hni h4
    rw [mapper_map, if_neg (by simp [hvk])]
    dsimp only
    rw [hni]
    have hpl : List.takeWhile (fun i => decide ((i : Fin 4).val < m.priv.num_planes))
        (List.finRange 4) = [0, 1, 2, 3] := by
      rw [finRange4]
      rw [List.takeWhile_cons, if_pos (by simp; omega)]
      rw [List.takeWhile_cons, if_pos (by simp; omega)]
      rw [List.takeWhile_cons, if_pos (by simp; omega)]
      rw [List.takeWhile_cons, if_pos (by simp; omega)]
      rfl
    rw [hpl]
    have hmp := mapPlanes_mp4 env
      ⟨m.priv.num_planes, m.priv.w, m.priv.h, m.priv.vkf, m.priv.tex,
        fun i => if (i : Nat) < 1 then f.img i else m.priv.img i,
        fun i => if (i : Nat) < 1 then f.layout i else m.priv.img_layout i,
        fun i => if (i : Nat) < 1 then f.sem i else m.priv.sem i,
        fun i => if (i : Nat) < 1 then f.sem_value i else m.priv.sem_value i,
        1⟩ ⟨m.priv.tex, m.tex, []⟩ (by dsimp only; omega) rfl hok hok2
    rw [hmp]
    dsimp only
    split <;>
    · refine ⟨by simp, ?_⟩
      intro w hw
      simp only [List.nil_append, List.mem_cons, List.not_mem_nil, or_false] at hw
      rcases hw with rfl | rfl | rfl <;> simp
  · intro hni
    have hle := countImages_le4 f
    rw [hni] at hle
    rw [mapper_map, if_neg (by simp [hvk])]
    dsimp only
    rw [hni]
    have hd : m.priv.num_planes = 0 ∨ m.priv.num_planes = 1 ∨
        m.priv.num_planes = 2 ∨ m.priv.num_planes = 3 ∨
        m.priv.num_planes = 4 := by omega
    rcases hd with hnp | hnp | hnp | hnp | hnp <;> rw [hnp]
    · have hpl : List.takeWhile (fun i => decide ((i : Fin 4).val < 0))
          (List.finRange 4) = [] := by decide
      rw [hpl, mapPlanes_nil]
      dsimp only
      refine ⟨rfl, by intro w hw; exact absurd hw (List.not_mem_nil w), ?_⟩
      intro j
      rw [willProcess_iff]
      dsimp only
      rw [texScan_false _ htex]
      simp
    · have hpl : List.takeWhile (fun i => decide ((i : Fin 4).val < 1))
          (List.finRange 4) = [0] := by decide
      rw [hpl]
      have hmp := mapPlanes_id1 env
        ⟨1, m.priv.w, m.priv.h, m.priv.vkf, m.priv.tex,
          fun i => if (i : Nat) < 1 then f.img i else m.priv.img i,
          fun i => if (i : Nat) < 1 then f.layout i else m.priv.img_layout i,
          fun i => if (i : Nat) < 1 then f.sem i else m.priv.sem i,
          fun i => if (i : Nat) < 1 then f.sem_value i else m.priv.sem_value i,
          1⟩ ⟨m.priv.tex, m.tex, []⟩ (by dsimp only; decide) hok hok2
      rw [hmp]
      dsimp only
      refine ⟨rfl, ?_, ?_⟩
      · intro w hw
        simp only [List.nil_append, List.mem_cons, List.not_mem_nil, or_false] at hw
        rcases hw with rfl
        exact ⟨rfl, rfl⟩
      · intro j
        rw [willProcess_iff]
        dsimp only
        rw [texScan_upd1 _ htex]
        fin_cases j <;> decide
    · have hpl : List.takeWhile (fun i => decide ((i : Fin 4).val < 2))
          (List.finRange 4) = [0, 1] := by decide
      rw [hpl]
      have hmp := mapPlanes_id2 env
        ⟨2, m.priv.w, m.priv.h, m.priv.vkf, m.priv.tex,
          fun i => if (i : Nat) < 2 then f.img i else m.priv.img i,
          fun i => if (i : Nat) < 2 then f.layout i else m.priv.img_layout i,
          fun i => if (i : Nat) < 2 then f.sem i else m.priv.sem i,
          fun i => if (i : Nat) < 2 then f.sem_value i else m.priv.sem_value i,
          2⟩ ⟨m.priv.tex, m.tex, []⟩ (by dsimp only; decide) hok hok2
      rw [hmp]
      dsimp only
      refine ⟨rfl, ?_, ?_⟩
      · intro w hw
        simp only [List.nil_append, List.mem_cons, List.not_mem_nil, or_false] at hw
        rcases hw with rfl | rfl <;> exact ⟨rfl, rfl⟩
      · intro j
        rw [willProcess_iff]
        dsimp only
        rw [texScan_upd2 _ htex]
        fin_cases j <;> decide
    · have hpl : List.takeWhile (fun i => decide ((i : Fin 4).val < 3))
          (List.finRange 4) = [0, 1, 2] := by decide
      rw [hpl]
      have hmp := mapPlanes_id3 env
        ⟨3, m.priv.w, m.priv.h, m.priv.vkf, m.priv.tex,
          fun i => if (i : Nat) < 3 then f.img i else m.priv.img i,
          fun i => if (i : Nat) < 3 then f.layout i else m.priv.img_layout i,
          fun i => if (i : Nat) < 3 then f.sem i else m.priv.sem i,
          fun i => if (i : Nat) < 3 then f.sem_value i else m.priv.sem_value i,
          3⟩ ⟨m.priv.tex, m.tex, []⟩ (by dsimp only; decide) hok hok2
      rw [hmp]
      dsimp only
      refine ⟨rfl, ?_, ?_⟩
      · intro w hw
        simp only [List.nil_append, List.mem_cons, List.not_mem_nil, or_false] at hw
        rcases hw with rfl | rfl | rfl <;> exact ⟨rfl, rfl⟩
      · intro j
        rw [willProcess_iff]
        dsimp only
        rw [texScan_upd3 _ htex]
        fin_cases j <;> decide
    · have hpl : List.takeWhile (fun i => decide ((i : Fin 4).val < 4))
          (List.finRange 4) = [0, 1, 2, 3] := by decide
      rw [hpl]
      have hmp := mapPlanes_id4 env
        ⟨4, m.priv.w, m.priv.h, m.priv.vkf, m.priv.tex,
          fun i => if (i : Nat) < 4 then f.img i else m.priv.img i,
          fun i => if (i : Nat) < 4 then f.layout i else m.priv.img_layout i,
          fun i => if (i : Nat) < 4 then f.sem i else m.priv.sem i,
          fun i => if (i : Nat) < 4 then f.sem_value i else m.priv.sem_value i,
          4⟩ ⟨m.priv.tex, m.tex, []⟩ (by dsimp only; decide) hok hok2
      rw [hmp]
      dsimp only
      refine ⟨rfl, ?_, ?_⟩
      · intro w hw
        simp only [List.nil_append, List.mem_cons, List.not_mem_nil, or_false] at hw
        rcases hw with rfl | rfl | rfl | rfl <;> exact ⟨rfl, rfl⟩
      · intro j
        rw [willProcess_iff]
        dsimp only
        rw [texScan_upd4]
        fin_cases j <;> decide
  · intro np ni i j a h
    rw [planeSelect] at h
    rw [mappingIndexF]
    by_cases hc : 1 < np ∧ ni = 1
    · rw [if_pos hc] at h
      rw [if_pos hc]
      fin_cases i <;> simp_all
    · rw [if_neg hc] at h
      rw [if_neg hc]
      simp only [Option.some.injEq, Prod.mk.injEq] at h
      exact h.1

theorem plane_mapping_rule_amended_witness :
    exMapEnv.vkOk = true ∧ (∀ i, exFresh2.priv.tex i = false) ∧
    (∀ i, exMapEnv.wrapOk i = true) ∧ (∀ i, exMapEnv.wrapTexOk i = true) ∧
    ((countImages exFrame1 = 1 → 1 < exFresh2.priv.num_planes →
        exFresh2.priv.num_planes ≤ 3 →
        (mapper_map exMapEnv exFresh2 exFrame1).outcome = .success ∧
        (∀ w ∈ (mapper_map exMapEnv exFresh2 exFrame1).wraps, w.imageIndex = 0 ∧
          (w.plane = 0 → w.aspect = .plane0) ∧
          (w.plane = 1 → w.aspect = .plane1) ∧
          (w.plane = 2 → w.aspect = .plane2)) ∧
        (mapper_map exMapEnv exFresh2 exFrame1).wraps.map (fun w => w.plane) =
          List.range exFresh2.priv.num_planes ∧
        (∀ j : Fin 4,
          willProcess (mapper_map exMapEnv exFresh2 exFrame1).m.priv j = true ↔
            j = 0)) ∧
     (countImages exFrame1 = 1 → 4 ≤ exFresh2.priv.num_planes →
        (mapper_map exMapEnv exFresh2 exFrame1).outcome ≠ .success ∧
        (∀ w ∈ (mapper_map exMapEnv exFresh2 exFrame1).wraps, w.plane ≤ 2)) ∧
     (countImages exFrame1 = exFresh2.priv.num_planes →
        (mapper_map exMapEnv exFresh2 exFrame1).outcome = .success ∧
        (∀ w ∈ (mapper_map exMapEnv exFresh2 exFrame1).wraps,
          w.imageIndex = w.plane ∧ w.aspect = .color) ∧
        (∀ j : Fin 4,
          willProcess (mapper_map exMapEnv exFresh2 exFrame1).m.priv j = true ↔
            (j : Nat) < exFresh2.priv.num_planes)) ∧
     (∀ np ni : Nat, ∀ i j : Fin 4, ∀ a : Aspect,
        planeSelect np ni i = some (j, a) → mappingIndexF np ni i = j)) :=
  ⟨by decide, by decide, by decide, by decide,
   plane_mapping_rule_amended exMapEnv exFresh2 exFrame1
     (by decide) (by decide) (by decide) (by decide)⟩

/-- C4 (counterexample): a device with one queue family that has no
video-decode capability — and hence zero decode-capable families — is not
rejected: the build succeeds and the device is registered with the device
registry, contradicting the claim that the builder fails. -/
theorem builder_no_decode_family_counterexample :
    exInitNoDecode.families.all (fun q => !q.decode) = true ∧
    (vulkan_init exInitNoDecode).result = InitResultKind.ok ∧
    (vulkan_init exInitNoDecode).registered = true ∧
    (vulkan_init exInitNoDecode).legacy =
      some ⟨0, 4, 1, 2, 0, 4, -1, 0⟩ := by
  decide

/-- C4 (amended): the builder fails and registers no device when the
device enumerates zero queue families; a device with families but none
decode-capable is not rejected by the builder itself — it merely records a
decode index of -1 (legacy) or no decode entry (multi-queue). -/
theorem builder_zero_families_fails (env : InitEnv)
    (h1 : env.isVulkan = true) (h2 : env.hasGpu = true)
    (h3 : env.extensions.contains "VK_KHR_video_decode_queue" = true)
    (h0 : env.families = []) :
    (vulkan_init env).result = .error ∧ (vulkan_init env).registered = false := by
  rw [vulkan_init]
  rw [if_neg (by simp [h1]), if_neg (by simp [h2]), if_neg (by rw [h3]; decide),
    if_pos (by rw [h0]; rfl)]
  exact ⟨rfl, rfl⟩

theorem builder_zero_families_fails_witness :
    exInitNoFamilies.isVulkan = true ∧ exInitNoFamilies.hasGpu = true ∧
    exInitNoFamilies.extensions.contains "VK_KHR_video_decode_queue" = true ∧
    exInitNoFamilies.families = [] ∧
    ((vulkan_init exInitNoFamilies).result = .error ∧
     (vulkan_init exInitNoFamilies).registered = false) :=
  ⟨by decide, by decide, by decide, by decide,
   builder_zero_families_fails exInitNoFamilies
     (by decide) (by decide) (by decide) (by decide)⟩

/-- C5: with queue families where only index 2 is decode-capable, the
legacy single-queue build records decode family index 2 with its queue
count; adding a second decode-capable family at index 4 makes the legacy
build record index 4 (the last decode-capable family in the ascending scan
wins), while the multi-queue build records both families 2 and 4, each
with its own codec-operations capability bitmask. -/
theorem legacy_last_wins_multi_collects :
    (vulkan_init exInit3).legacy = some ⟨0, 4, 1, 2, 0, 4, 2, 2⟩ ∧
    (vulkan_init exInit5).legacy = some ⟨0, 4, 1, 2, 0, 4, 4, 3⟩ ∧
    (vulkan_init exInit5m).multi =
      some [⟨0, 4, .graphics, 0⟩, ⟨1, 2, .transfer, 0⟩, ⟨0, 4, .compute, 0⟩,
            ⟨2, 2, .decode, 7⟩, ⟨4, 3, .decode, 9⟩] := by
  decide

/-- C8 (counterexample): when the backend initialization call fails, the
builder takes the error path but the Queue Arbitration Guard is not
released — it stays allocated and its mutex is not destroyed —
contradicting the claim that the failing builder releases the guard. -/
theorem builder_backend_fail_guard_counterexample :
    exInitBackendFail.backendOk = false ∧
    (vulkan_init exInitBackendFail).result = .error ∧
    (vulkan_init exInitBackendFail).guard_live = true ∧
    (vulkan_init exInitBackendFail).guard_mutex_live = true := by
  decide

/-- C8 (amended): if the backend's device initialization call fails, the
builder fails, frees the queue-family descriptor arrays, unrefs the decode
device handle and registers no device; the Queue Arbitration Guard,
however, remains allocated with its mutex intact — it is only released by
the teardown path. -/
theorem builder_backend_fail_cleanup (env : InitEnv)
    (h1 : env.isVulkan = true) (h2 : env.hasGpu = true)
    (h3 : env.extensions.contains "VK_KHR_video_decode_queue" = true)
    (h4 : env.families.length ≠ 0) (h5 : env.allocOk = true)
    (h6 : env.lockCtxOk = true) (h7 : env.backendOk = false) :
    (vulkan_init env).result = .error ∧ (vulkan_init env).registered = false ∧
    (vulkan_init env).qf_live = false ∧ (vulkan_init env).device_live = false ∧
    (vulkan_init env).guard_live = true ∧
    (vulkan_init env).guard_mutex_live = true := by
  rw [vulkan_init]
  rw [if_neg (by simp [h1]), if_neg (by simp [h2]), if_neg (by rw [h3]; decide),
    if_neg h4, if_neg (by simp [h5]), if_neg (by simp [h6])]
  dsimp only
  rw [if_pos h7]
  exact ⟨rfl, rfl, rfl, rfl, rfl, rfl⟩

theorem builder_backend_fail_cleanup_witness :
    exInitBackendFail.isVulkan = true ∧ exInitBackendFail.hasGpu = true ∧
    exInitBackendFail.extensions.contains "VK_KHR_video_decode_queue" = true ∧
    exInitBackendFail.families.length ≠ 0 ∧ exInitBackendFail.allocOk = true ∧
    exInitBackendFail.lockCtxOk = true ∧ exInitBackendFail.backendOk = false ∧
    ((vulkan_init exInitBackendFail).result = .error ∧
     (vulkan_init exInitBackendFail).registered = false ∧
     (vulkan_init exInitBackendFail).qf_live = false ∧
     (vulkan_init exInitBackendFail).device_live = false ∧
     (vulkan_init exInitBackendFail).guard_live = true ∧
     (vulkan_init exInitBackendFail).guard_mutex_live = true) :=
  ⟨by decide, by decide, by decide, by decide, by decide, by decide, by decide,
   builder_backend_fail_cleanup exInitBackendFail (by decide) (by decide)
     (by decide) (by decide) (by decide) (by decide) (by decide)⟩

end DmpvVulkan
